import Mathlib

/-!
Verification of the TrackTheTube visualization component
(`src/TrackTheTube.Client/src/components/TubeMap.tsx`, plus an earlier
variant of the same component in `src/unnamed/part_002`).

The TypeScript component is UI glue: a color lookup table, the layer
composition list, a tooltip formatter, a one-shot data loader per dataset,
and an animation clock delegated to the third-party `popmotion.animate`.
Each piece is embedded below as a pure Lean function over explicit data.
JavaScript truthiness (`x || ''`, `if (obj)`, `obj?.field`) is modelled
with `Option` and explicit defaults, matching the source expression by
expression.
-/

namespace TubeMap

/-- A 4-component RGBA color, one `Nat` per channel (0–255 per channel,
alpha included), as the `[number, number, number, number]` tuples of the
source. -/
abbrev RGBA := Nat × Nat × Nat × Nat

/-- One entry of a feature's `lines` array: `{name, opened, ...}`.  Both
fields are optional at the public interface (the color resolver and
tooltip formatter access them behind `?.` / `||` guards), so both are
`Option`.  `none` models a missing (`undefined`) field. -/
structure LineEntry where
  name : Option String
  opened : Option Nat
deriving DecidableEq, Repr

/-- The `properties` object of a GeoJSON feature, restricted to the fields
the component reads: `id`, `name` and `lines`.  Every field is `Option`
because the component accesses them behind optional chaining or
truthiness checks. -/
structure FeatProps where
  id : Option String
  name : Option String
  lines : Option (List LineEntry)
deriving DecidableEq, Repr

/-- A GeoJSON feature as the color accessors see it: an optional
`properties` object and the geometry's `type` string (`none` when the
feature value carries no geometry, as in the synthetic feature built by
`getRgbColourStringForText`). -/
structure Feature where
  properties : Option FeatProps
  geometryType : Option String
deriving DecidableEq, Repr

/-- `feature.properties?.lines?.[0]?.name || ''` — the line-name
extraction at the head of `getLineColor`.  Each `?.` step yields
`undefined` when the receiver is missing, and `|| ''` turns a missing or
empty name into the empty string. -/
def extractLineName (feature : Feature) : String :=
  match feature.properties with
  | none => ""
  | some props =>
    match props.lines with
    | none => ""
    | some ls =>
      match ls.head? with
      | none => ""
      | some entry => entry.name.getD ""

/-- The `lineColours` record of the final variant's `getLineColor`
(TubeMap.tsx lines 85–100): a fixed lookup from the 14 known line names
to RGBA tuples; `none` models a key that is absent from the record. -/
def lineColours (lineName : String) : Option RGBA :=
  if lineName = "London Overground" then some (255, 136, 0, 100) -- Orange
  else if lineName = "Central" then some (220, 36, 31, 100) -- Red
  else if lineName = "Piccadilly" then some (0, 25, 168, 100) -- Dark Blue
  else if lineName = "Northern" then some (0, 0, 0, 255) -- Black
  else if lineName = "Metropolitan" then some (155, 0, 88, 100) -- Magenta
  else if lineName = "District" then some (0, 125, 50, 100) -- Green
  else if lineName = "Circle" then some (255, 206, 0, 100) -- Yellow
  else if lineName = "Hammersmith & City" then some (244, 169, 190, 100) -- Pink
  else if lineName = "Bakerloo" then some (137, 78, 36, 100) -- Brown
  else if lineName = "Jubilee" then some (161, 165, 167, 100) -- Grey
  else if lineName = "Victoria" then some (0, 152, 216, 100) -- Light Blue
  else if lineName = "Waterloo & City" then some (147, 206, 186, 100) -- Turquoise
  else if lineName = "Elizabeth line" then some (147, 100, 204, 100) -- Purple
  else if lineName = "DLR" then some (0, 175, 173, 100) -- Teal
  else none

/-- The 14 line names the `lineColours` record knows. -/
def knownLineNames : List String :=
  ["London Overground", "Central", "Piccadilly", "Northern", "Metropolitan",
   "District", "Circle", "Hammersmith & City", "Bakerloo", "Jubilee",
   "Victoria", "Waterloo & City", "Elizabeth line", "DLR"]

/-- The final variant's `getLineColor` (TubeMap.tsx lines 81–104):
`lineColours[lineName] || [255, 255, 255, 10]`. -/
def getLineColor (feature : Feature) : RGBA :=
  (lineColours (extractLineName feature)).getD (255, 255, 255, 10) -- Default white

/-- The `lineColors` record of the earlier variant's `getLineColor`
(`src/unnamed/part_002` lines 67–82).  Identical to `lineColours` except
for the Northern entry's alpha channel (100 instead of 255). -/
def lineColorsEarlier (lineName : String) : Option RGBA :=
  if lineName = "London Overground" then some (255, 136, 0, 100) -- Orange
  else if lineName = "Central" then some (220, 36, 31, 100) -- Red
  else if lineName = "Piccadilly" then some (0, 25, 168, 100) -- Dark Blue
  else if lineName = "Northern" then some (0, 0, 0, 100) -- Black
  else if lineName = "Metropolitan" then some (155, 0, 88, 100) -- Magenta
  else if lineName = "District" then some (0, 125, 50, 100) -- Green
  else if lineName = "Circle" then some (255, 206, 0, 100) -- Yellow
  else if lineName = "Hammersmith & City" then some (244, 169, 190, 100) -- Pink
  else if lineName = "Bakerloo" then some (137, 78, 36, 100) -- Brown
  else if lineName = "Jubilee" then some (161, 165, 167, 100) -- Grey
  else if lineName = "Victoria" then some (0, 152, 216, 100) -- Light Blue
  else if lineName = "Waterloo & City" then some (147, 206, 186, 100) -- Turquoise
  else if lineName = "Elizabeth line" then some (147, 100, 204, 100) -- Purple
  else if lineName = "DLR" then some (0, 175, 173, 100) -- Teal
  else none

/-- The earlier variant's `getLineColor` (`src/unnamed/part_002` lines
63–85): `lineColors[lineName] || [255, 255, 255, 10]`. -/
def getLineColorEarlier (feature : Feature) : RGBA :=
  (lineColorsEarlier (extractLineName feature)).getD (255, 255, 255, 10) -- Default white

/-- A feature whose properties carry exactly one line entry with the given
name and no other data — the shape `getRgbColourStringForText` constructs:
`{ properties: { lines: [{ name: lineName }] } }`. -/
def featureNamed (lineName : String) : Feature :=
  { properties := some { id := none, name := none, lines := some [{ name := some lineName, opened := none }] },
    geometryType := none }

/-- `getRgbColourStringForText` (TubeMap.tsx lines 107–117): white text
for the Northern line, otherwise the RGB channels of `getLineColor` on a
synthetic single-line feature, rendered as a CSS `rgb(r, g, b)` string. -/
def getRgbColourStringForText (lineName : String) : String :=
  if lineName = "Northern" then "rgb(255, 255, 255)" -- White text for Northern Line
  else
    let colour := getLineColor (featureNamed lineName)
    "rgb(" ++ toString colour.1 ++ ", " ++ toString colour.2.1 ++ ", " ++ toString colour.2.2.1 ++ ")"

theorem lineColours_eq_none_of_unknown (s : String) (h : s ∉ knownLineNames) :
    lineColours s = none := by
  simp only [knownLineNames, List.mem_cons, List.not_mem_nil, or_false, not_or] at h
  obtain ⟨h1, h2, h3, h4, h5, h6, h7, h8, h9, h10, h11, h12, h13, h14⟩ := h
  simp only [lineColours, if_neg h1, if_neg h2, if_neg h3, if_neg h4, if_neg h5, if_neg h6,
    if_neg h7, if_neg h8, if_neg h9, if_neg h10, if_neg h11, if_neg h12, if_neg h13, if_neg h14]

theorem lineColorsEarlier_eq_none_of_unknown (s : String) (h : s ∉ knownLineNames) :
    lineColorsEarlier s = none := by
  simp only [knownLineNames, List.mem_cons, List.not_mem_nil, or_false, not_or] at h
  obtain ⟨h1, h2, h3, h4, h5, h6, h7, h8, h9, h10, h11, h12, h13, h14⟩ := h
  simp only [lineColorsEarlier, if_neg h1, if_neg h2, if_neg h3, if_neg h4, if_neg h5, if_neg h6,
    if_neg h7, if_neg h8, if_neg h9, if_neg h10, if_neg h11, if_neg h12, if_neg h13, if_neg h14]

/-- The two variants' color tables agree at every key other than `"Northern"`. -/
theorem lineColorsEarlier_eq_lineColours (n : String) (hn : n ≠ "Northern") :
    lineColorsEarlier n = lineColours n := by
  unfold lineColorsEarlier lineColours
  simp only [if_neg hn]

/-- C1: the Color Resolver is a pure lookup from a line-name string to an
RGBA color: a feature whose first line name is "Central" resolves to
(220,36,31,100); in the final variant "Northern" resolves to (0,0,0,255);
and every name outside the 14 known line names resolves to the
near-transparent white default (255,255,255,10). -/
theorem getLineColor_resolves (f g k : Feature)
    (hf : extractLineName f = "Central")
    (hg : extractLineName g = "Northern")
    (hk : extractLineName k ∉ knownLineNames) :
    getLineColor f = (220, 36, 31, 100) ∧
    getLineColor g = (0, 0, 0, 255) ∧
    getLineColor k = (255, 255, 255, 10) := by
  refine ⟨?_, ?_, ?_⟩
  · simp only [getLineColor, hf]; rfl
  · simp only [getLineColor, hg]; rfl
  · simp only [getLineColor, lineColours_eq_none_of_unknown _ hk, Option.getD_none]

/-- Witness for C1 at the concrete names "Central", "Northern" and
"Unknown Line". -/
theorem getLineColor_resolves_witness :
    extractLineName (featureNamed "Central") = "Central" ∧
    extractLineName (featureNamed "Northern") = "Northern" ∧
    extractLineName (featureNamed "Unknown Line") ∉ knownLineNames ∧
    (getLineColor (featureNamed "Central") = (220, 36, 31, 100) ∧
     getLineColor (featureNamed "Northern") = (0, 0, 0, 255) ∧
     getLineColor (featureNamed "Unknown Line") = (255, 255, 255, 10)) :=
  ⟨rfl, rfl, by decide, getLineColor_resolves _ _ _ rfl rfl (by decide)⟩

/-- C9: the two variants' color lookups are not equal: they disagree
exactly on the Northern entry (alpha 100 in the earlier variant, 255 in
the final one), and agree on every feature whose extracted line name is
not "Northern" — in particular on the other 13 known names and on the
unknown-name fallback. -/
theorem getLineColor_variants_differ (f : Feature)
    (hf : extractLineName f ≠ "Northern") :
    getLineColorEarlier (featureNamed "Northern") = (0, 0, 0, 100) ∧
    getLineColor (featureNamed "Northern") = (0, 0, 0, 255) ∧
    getLineColorEarlier (featureNamed "Northern") ≠
      getLineColor (featureNamed "Northern") ∧
    getLineColorEarlier f = getLineColor f := by
  refine ⟨rfl, rfl, by decide, ?_⟩
  simp only [getLineColorEarlier, getLineColor,
    lineColorsEarlier_eq_lineColours _ hf]

/-- Witness for C9 at the concrete name "Central". -/
theorem getLineColor_variants_differ_witness :
    extractLineName (featureNamed "Central") ≠ "Northern" ∧
    (getLineColorEarlier (featureNamed "Northern") = (0, 0, 0, 100) ∧
     getLineColor (featureNamed "Northern") = (0, 0, 0, 255) ∧
     getLineColorEarlier (featureNamed "Northern") ≠
       getLineColor (featureNamed "Northern") ∧
     getLineColorEarlier (featureNamed "Central") =
       getLineColor (featureNamed "Central")) :=
  ⟨by decide, getLineColor_variants_differ _ (by decide)⟩

/-- A feature with the given `properties` fields present, used to range
over the malformed-input shapes of the safety claim. -/
def featureWith (i nm : Option String) (ls : Option (List LineEntry)) (g : Option String) :
    Feature :=
  { properties := some { id := i, name := nm, lines := ls }, geometryType := g }

/-- C10: the Color Resolver is total at the public interface: a feature
with no `properties`, no `lines` array, an empty `lines` array, or a first
line entry without a `name` is treated as having the empty-string line
name and resolves to the default fallback (255,255,255,10). -/
theorem getLineColor_total_on_missing_data :
    (∀ g, extractLineName { properties := none, geometryType := g } = "" ∧
      getLineColor { properties := none, geometryType := g } = (255, 255, 255, 10)) ∧
    (∀ g i nm, extractLineName (featureWith i nm none g) = "" ∧
      getLineColor (featureWith i nm none g) = (255, 255, 255, 10)) ∧
    (∀ g i nm, extractLineName (featureWith i nm (some []) g) = "" ∧
      getLineColor (featureWith i nm (some []) g) = (255, 255, 255, 10)) ∧
    (∀ g i nm op rest,
      extractLineName (featureWith i nm (some ({ name := none, opened := op } :: rest)) g) = "" ∧
      getLineColor (featureWith i nm (some ({ name := none, opened := op } :: rest)) g) =
        (255, 255, 255, 10)) :=
  ⟨fun _ => ⟨rfl, rfl⟩, fun _ _ _ => ⟨rfl, rfl⟩, fun _ _ _ => ⟨rfl, rfl⟩,
   fun _ _ _ _ _ => ⟨rfl, rfl⟩⟩

/-! ## Animation Clock

The component configures `popmotion.animate` (TubeMap.tsx lines 43–52)
with `from: 0`, `to: loopLength`, `duration: (loopLength * 60) /
animationSpeed`, `repeat: Infinity`, and stops it on teardown.  The tween
engine itself is the `popmotion` library, not code of this repository, so
its output is modelled from the spec's contract. -/

/-- The tween duration the component requests: `(loopLength * 60) /
animationSpeed` (TubeMap.tsx line 47). -/
def tweenDuration (loopLength animationSpeed : ℚ) : ℚ :=
  loopLength * 60 / animationSpeed

/-- Modelled from the spec: the `popmotion.animate` tween driver is not
part of this repository.  Per the spec the clock "increases linearly from
0 to L over a duration of `(L * 60) / S` seconds, then restarts from 0,
repeating indefinitely"; `clockPhase t d` is the elapsed time within the
current cycle of period `d` at wall-clock time `t`. -/
def clockPhase (t d : ℚ) : ℚ := t - d * ⌊t / d⌋

/-- Modelled from the spec: the value the clock reports at wall-clock time
`t`, for the configuration the component requests (`from 0`, `to
loopLength`, duration `tweenDuration`, repeating indefinitely): the linear
interpolation from 0 to `loopLength` over the current cycle. -/
def clockValue (loopLength animationSpeed t : ℚ) : ℚ :=
  loopLength * clockPhase t (tweenDuration loopLength animationSpeed) /
    tweenDuration loopLength animationSpeed

/-- Modelled from the spec: the component's cleanup calls
`animation.stop()`; after the stop time no further updates are observed,
so the observed update stream is `none` from the stop time on. -/
def observedUpdate (loopLength animationSpeed stopTime t : ℚ) : Option ℚ :=
  if t < stopTime then some (clockValue loopLength animationSpeed t) else none

theorem tweenDuration_pos (L S : ℚ) (hL : 0 < L) (hS : 0 < S) :
    0 < tweenDuration L S := by
  unfold tweenDuration
  positivity

/-- Within the first cycle the phase is the elapsed time itself. -/
theorem clockPhase_eq_self (t d : ℚ) (hd : 0 < d) (h0 : 0 ≤ t) (htd : t < d) :
    clockPhase t d = t := by
  unfold clockPhase
  have hfloor : ⌊t / d⌋ = 0 :=
    Int.floor_eq_zero_iff.mpr ⟨div_nonneg h0 hd.le, (div_lt_one hd).mpr htd⟩
  rw [hfloor]
  simp

/-- The phase is periodic with period `d`. -/
theorem clockPhase_add_period (t d : ℚ) (hd : d ≠ 0) :
    clockPhase (t + d) d = clockPhase t d := by
  unfold clockPhase
  have : (t + d) / d = t / d + 1 := by field_simp
  rw [this, Int.floor_add_one]
  push_cast
  ring

/-- C2: for loop length L and speed S, the clock reports `L * t /
duration` at every time `0 ≤ t < duration` where `duration = L*60/S`; the
value wraps to 0 exactly at `t = duration`; the cycle repeats with period
`duration` indefinitely; and once the clock is stopped no further update
is observed. -/
theorem clockValue_spec (L S t stopTime u : ℚ)
    (hL : 0 < L) (hS : 0 < S)
    (h0 : 0 ≤ t) (htd : t < tweenDuration L S) (hstop : stopTime ≤ u) :
    clockValue L S t = L * t / tweenDuration L S ∧
    clockValue L S (tweenDuration L S) = 0 ∧
    (∀ v, clockValue L S (v + tweenDuration L S) = clockValue L S v) ∧
    observedUpdate L S stopTime u = none := by
  have hd : 0 < tweenDuration L S := tweenDuration_pos L S hL hS
  refine ⟨?_, ?_, ?_, ?_⟩
  · unfold clockValue
    rw [clockPhase_eq_self t _ hd h0 htd]
  · unfold clockValue clockPhase
    rw [div_self hd.ne']
    norm_num
  · intro v
    unfold clockValue
    rw [clockPhase_add_period v _ hd.ne']
  · exact if_neg (not_lt.mpr hstop)

/-- Witness for C2 at the component's default configuration `loopLength =
1800`, `animationSpeed = 10` (duration 10800), at `t = 5400` and a stop
observed at the stop time itself. -/
theorem clockValue_spec_witness :
    (0 : ℚ) < 1800 ∧ (0 : ℚ) < 10 ∧ (0 : ℚ) ≤ 5400 ∧
    (5400 : ℚ) < tweenDuration 1800 10 ∧ (7 : ℚ) ≤ 7 ∧
    (clockValue 1800 10 5400 = 1800 * 5400 / tweenDuration 1800 10 ∧
     clockValue 1800 10 (tweenDuration 1800 10) = 0 ∧
     (∀ v, clockValue 1800 10 (v + tweenDuration 1800 10) = clockValue 1800 10 v) ∧
     observedUpdate 1800 10 7 7 = none) :=
  ⟨by norm_num, by norm_num, by norm_num, by norm_num [tweenDuration], le_refl 7,
   clockValue_spec 1800 10 5400 7 7 (by norm_num) (by norm_num) (by norm_num)
     (by norm_num [tweenDuration]) (le_refl 7)⟩

/-! ## Data Loader

Two `useEffect` blocks (TubeMap.tsx lines 55–65 and 68–78) each either
store inline data or issue one `fetch` to a fixed URL; a rejected fetch
(or a failed JSON parse) is caught and logged.  The effect is embedded as
a pure step function from the inline data and the would-be fetch outcome
to the resulting state plus the observable trace (fetch calls issued,
errors logged, whether anything escaped the component). -/

/-- The fixed URL the line-data effect fetches when no inline data is
supplied (TubeMap.tsx line 60). -/
def tflLinesUrl : String :=
  "https://raw.githubusercontent.com/oobrien/vis/master/tubecreature/data/tfl_lines.json"

/-- The fixed URL the station-data effect fetches when no inline data is
supplied (TubeMap.tsx line 73). -/
def tflStationsUrl : String :=
  "https://raw.githubusercontent.com/oobrien/vis/master/tubecreature/data/tfl_stations.json"

/-- The outcome of one network fetch-and-parse, had it been issued:
either parsed data of type `α`, or a rejection/parse failure carrying the
error's description. -/
inductive FetchOutcome (α : Type) where
  | success (data : α)
  | failure (error : String)

/-- What one data-loading effect leaves behind: the dataset state slot
(`null` initially and after a failure), the list of URLs fetched, the
console-error calls issued (each a pair of the fixed message and the
error's description, the two arguments of `console.error`), and whether
an exception escaped the component. -/
structure LoaderResult (α : Type) where
  state : Option α
  fetchCalls : List String
  loggedErrors : List (String × String)
  threw : Bool

/-- One data-loading effect (the body of each loading `useEffect`): with
inline data present it stores it; otherwise it fetches `url` once, storing
the parsed data on success and catching and logging a failure with the
given message prefix. -/
def runLoader {α : Type} (url logPrefix : String) (inlineData : Option α)
    (outcome : FetchOutcome α) : LoaderResult α :=
  match inlineData with
  | some d => { state := some d, fetchCalls := [], loggedErrors := [], threw := false }
  | none =>
    match outcome with
    | .success d =>
      { state := some d, fetchCalls := [url], loggedErrors := [], threw := false }
    | .failure e =>
      { state := none, fetchCalls := [url],
        loggedErrors := [(logPrefix, e)], threw := false }

/-- The tube-line loading effect (TubeMap.tsx lines 55–65). -/
def loadTubeLines {α : Type} (inlineData : Option α) (outcome : FetchOutcome α) :
    LoaderResult α :=
  runLoader tflLinesUrl "Failed to load tube line data:" inlineData outcome

/-- The tube-station loading effect (TubeMap.tsx lines 68–78). -/
def loadTubeStations {α : Type} (inlineData : Option α) (outcome : FetchOutcome α) :
    LoaderResult α :=
  runLoader tflStationsUrl "Failed to load tube station data:" inlineData outcome

/-- C5: for each of the two datasets, inline data is stored with no
network call; absent inline data exactly one fetch to the documented
fixed URL occurs (storing the parsed result on success); a rejected fetch
logs the error, leaves the dataset null, and nothing is thrown out of the
component in any case. -/
theorem loader_spec {α : Type} :
    (∀ (d : α) outcome, loadTubeLines (some d) outcome =
      { state := some d, fetchCalls := [], loggedErrors := [], threw := false }) ∧
    (∀ (d : α), loadTubeLines none (.success d) =
      { state := some d, fetchCalls := [tflLinesUrl], loggedErrors := [], threw := false }) ∧
    (∀ e, loadTubeLines (α := α) none (.failure e) =
      { state := none, fetchCalls := [tflLinesUrl],
        loggedErrors := [("Failed to load tube line data:", e)], threw := false }) ∧
    (∀ (d : α) outcome, loadTubeStations (some d) outcome =
      { state := some d, fetchCalls := [], loggedErrors := [], threw := false }) ∧
    (∀ (d : α), loadTubeStations none (.success d) =
      { state := some d, fetchCalls := [tflStationsUrl], loggedErrors := [], threw := false }) ∧
    (∀ e, loadTubeStations (α := α) none (.failure e) =
      { state := none, fetchCalls := [tflStationsUrl],
        loggedErrors := [("Failed to load tube station data:", e)], threw := false }) ∧
    (∀ inlineData outcome, (loadTubeLines (α := α) inlineData outcome).threw = false ∧
      (loadTubeStations (α := α) inlineData outcome).threw = false) :=
  ⟨fun _ _ => rfl, fun _ => rfl, fun _ => rfl, fun _ _ => rfl, fun _ => rfl, fun _ => rfl,
   fun inlineData outcome => by
    cases inlineData <;> cases outcome <;> exact ⟨rfl, rfl⟩⟩

/-! ## Data model of the layer inputs

The typed datasets of `src/TrackTheTube.Client/src/types/Tube.ts`, the
`Trip` record of `types/Trip.ts` and the theme of `types/MapTheme.ts`.
Numbers that can be fractional in the source (coordinates, times,
opacities) are `ℚ`.  The theme's `effects` field (a list of GL
lighting-effect engine objects that the layer logic never reads, only
forwards to the renderer) is not represented. -/

/-- A deck.gl position, `[x, y]` or `[x, y, z]`. -/
abbrev Position := List ℚ

/-- `types/Trip.ts`: `{vendor, path, timestamps}`. -/
structure Trip where
  vendor : Nat
  path : List Position
  timestamps : List ℚ

/-- The `trips` prop: `string | Trip[]` (a URL or inline trip records). -/
abbrev TripsData := String ⊕ List Trip

/-- One sub-line descriptor of a tube-line feature
(`Tube.ts` `TubeLineProperties.lines` entries). -/
structure TubeSubLine where
  name : String
  opened : Nat
  start_sid : String
  end_sid : String
  otend_sid : Option String

/-- `Tube.ts` `TubeLineFeature`: an id, its sub-lines and a `LineString`
geometry given by its coordinates. -/
structure TubeLineFeature where
  id : String
  lines : List TubeSubLine
  coordinates : List (ℚ × ℚ)

/-- `Tube.ts` `TubeLineData`: a named `FeatureCollection` of line
features. -/
structure TubeLineData where
  name : String
  features : List TubeLineFeature

/-- One serving-line reference of a station
(`Tube.ts` `TubeStationData` properties, `lines` entries). -/
structure StationLineRef where
  name : String
  nightopened : Option Nat
  opened : Option Nat

/-- Label placement hints of a station (`cartography.{labelX, labelY}`). -/
structure Cartography where
  labelX : Option ℚ
  labelY : Option ℚ

/-- The properties of one station feature (`Tube.ts` `TubeStationData`). -/
structure StationProps where
  id : String
  name : String
  nlc_id : String
  lines : List StationLineRef
  cartography : Cartography
  alt_id : Int
  zone : String

/-- One station feature: its properties and its `Point` geometry. -/
structure TubeStationFeature where
  properties : StationProps
  coordinates : ℚ × ℚ

/-- `Tube.ts` `TubeStationData`: a `FeatureCollection` of station
features. -/
structure TubeStationData where
  features : List TubeStationFeature

/-- `types/MapTheme.ts` `Material`. -/
structure Material where
  ambient : ℚ
  diffuse : ℚ
  shininess : Nat
  specularColor : List Nat

/-- `types/MapTheme.ts` `MapTheme` (without the forwarded `effects`
engine objects — see the section comment). -/
structure MapTheme where
  buildingColor : List Nat
  trailColor0 : List Nat
  trailColor1 : List Nat
  material : Material

/-! ## Layer Composer

The `layers` array of the final variant (TubeMap.tsx lines 119–197):
conditionally the two tube-line layers, conditionally the station layer,
and always the trips layer, in that order.  Each `new GeoJsonLayer(...)` /
`new TripsLayer(...)` call is embedded as a descriptor structure holding
exactly the parameters the source passes. -/

/-- Which dataset a GeoJSON layer renders. -/
inductive GeoData where
  | lineData (d : TubeLineData)
  | stationData (d : TubeStationData)

/-- A deck.gl color accessor: either a constant color or a per-feature
function. -/
inductive ColorAccessor where
  | const (c : RGBA)
  | perFeature (f : Feature → RGBA)

/-- The border layer's `getLineColor` accessor (TubeMap.tsx lines
131–135): a white border for the Northern line only, transparent for
every other line. -/
def borderLineColor (feature : Feature) : RGBA :=
  if extractLineName feature = "Northern" then (255, 255, 255, 255)
  else (0, 0, 0, 0) -- Transparent for other lines

/-- A `new GeoJsonLayer({...})` descriptor: the parameters the component
passes; `none` for a parameter the source omits in that call. -/
structure GeoJsonLayerDesc where
  id : String
  data : GeoData
  pickable : Bool
  stroked : Bool
  filled : Bool
  lineWidthMinPixels : Option Nat
  lineWidthMaxPixels : Option Nat
  pointRadiusMinPixels : Option Nat
  pointRadiusMaxPixels : Option Nat
  getLineColor : Option ColorAccessor
  getFillColor : Option ColorAccessor
  getLineWidth : Option Nat
  getPointRadius : Option Nat
  updateTriggersGetLineColor : Option (List GeoData)
  depthTestDisabled : Bool

/-- A `new TripsLayer({...})` descriptor (TubeMap.tsx lines 185–196). -/
structure TripsLayerDesc where
  id : String
  data : Option TripsData
  getPath : Trip → List Position
  getTimestamps : Trip → List ℚ
  getColor : Trip → List Nat
  opacity : ℚ
  widthMinPixels : Nat
  capRounded : Bool
  trailLength : ℚ
  currentTime : ℚ

/-- One element of the composed `layers` array. -/
inductive LayerDesc where
  | geoJson (d : GeoJsonLayerDesc)
  | tripsLayer (d : TripsLayerDesc)

/-- The string identifier a descriptor carries. -/
def LayerDesc.layerId : LayerDesc → String
  | .geoJson d => d.id
  | .tripsLayer d => d.id

/-- The tube-lines border layer (TubeMap.tsx lines 123–140). -/
def tubeLinesBorderLayer (tubeLines : TubeLineData) : GeoJsonLayerDesc :=
  { id := "tube-lines-border"
    data := .lineData tubeLines
    pickable := false -- Not pickable, as it's just a visual border
    stroked := true
    filled := false
    lineWidthMinPixels := some 10 -- Slightly thicker for the border
    lineWidthMaxPixels := some 12
    pointRadiusMinPixels := none
    pointRadiusMaxPixels := none
    getLineColor := some (.perFeature borderLineColor)
    getFillColor := none
    getLineWidth := some 2
    getPointRadius := none
    updateTriggersGetLineColor := none
    depthTestDisabled := true }

/-- The pickable main tube-lines layer (TubeMap.tsx lines 141–157). -/
def tubeLinesMainLayer (tubeLines : TubeLineData) : GeoJsonLayerDesc :=
  { id := "tube-lines-main"
    data := .lineData tubeLines
    pickable := true -- This is the layer that will be pickable for tooltips
    stroked := true
    filled := false
    lineWidthMinPixels := some 8 -- Slightly thinner for the main line color
    lineWidthMaxPixels := some 10
    pointRadiusMinPixels := none
    pointRadiusMaxPixels := none
    getLineColor := some (.perFeature getLineColor)
    getFillColor := none
    getLineWidth := some 2
    getPointRadius := none
    updateTriggersGetLineColor := some [.lineData tubeLines]
    depthTestDisabled := true }

/-- The tube-stations layer (TubeMap.tsx lines 164–180). -/
def tubeStationsLayer (tubeStations : TubeStationData) : GeoJsonLayerDesc :=
  { id := "tube-stations"
    data := .stationData tubeStations
    pickable := true
    stroked := true
    filled := true
    lineWidthMinPixels := some 1
    lineWidthMaxPixels := none
    pointRadiusMinPixels := some 4 -- Minimum size of the station circles
    pointRadiusMaxPixels := some 8 -- Maximum size of the station circles
    getLineColor := some (.const (255, 255, 255, 200))
    getFillColor := some (.const (255, 255, 255, 120))
    getLineWidth := some 1
    getPointRadius := some 100 -- Adjust this value to scale station circles
    updateTriggersGetLineColor := none
    depthTestDisabled := true }

/-- The animated trips layer (TubeMap.tsx lines 185–196). -/
def tripsLayerDesc (trips : Option TripsData) (trailLength time : ℚ)
    (theme : MapTheme) : TripsLayerDesc :=
  { id := "trips"
    data := trips
    getPath := fun d => d.path
    getTimestamps := fun d => d.timestamps
    getColor := fun d => if d.vendor = 0 then theme.trailColor0 else theme.trailColor1
    opacity := 0.3
    widthMinPixels := 2
    capRounded := true
    trailLength := trailLength
    currentTime := time }

/-- The composed `layers` array (TubeMap.tsx lines 119–197):
`...(showTubeLines && tubeLines ? [border, main] : [])`, then
`...(showTubeStations && tubeStations ? [stations] : [])`, then the trips
layer. -/
def layers (trips : Option TripsData) (trailLength time : ℚ) (theme : MapTheme)
    (tubeLines : Option TubeLineData) (tubeStations : Option TubeStationData)
    (showTubeLines showTubeStations : Bool) : List LayerDesc :=
  (match showTubeLines, tubeLines with
   | true, some tl => [.geoJson (tubeLinesBorderLayer tl), .geoJson (tubeLinesMainLayer tl)]
   | _, _ => []) ++
  (match showTubeStations, tubeStations with
   | true, some ts => [.geoJson (tubeStationsLayer ts)]
   | _, _ => []) ++
  [.tripsLayer (tripsLayerDesc trips trailLength time theme)]

/-- C3: with both datasets present and both visibility flags true, the
composed list's descriptor ids are exactly, in order,
`tube-lines-border`, `tube-lines-main`, `tube-stations`, `trips`. -/
theorem layers_order (trips : Option TripsData) (trailLength time : ℚ)
    (theme : MapTheme) (tl : TubeLineData) (ts : TubeStationData) :
    (layers trips trailLength time theme (some tl) (some ts) true true).map
        LayerDesc.layerId =
      ["tube-lines-border", "tube-lines-main", "tube-stations", "trips"] := rfl

/-- C4: with `showTubeLines = false` no descriptor with id
`tube-lines-main` or `tube-lines-border` occurs in the composed list
(whatever the other inputs), and with `showTubeStations = false` no
descriptor with id `tube-stations` occurs: disabled layers are
structurally absent. -/
theorem layers_visibility_flags (trips : Option TripsData) (trailLength time : ℚ)
    (theme : MapTheme) (tl : Option TubeLineData) (ts : Option TubeStationData)
    (sl st : Bool) :
    ("tube-lines-main" ∉
        (layers trips trailLength time theme tl ts false st).map LayerDesc.layerId ∧
     "tube-lines-border" ∉
        (layers trips trailLength time theme tl ts false st).map LayerDesc.layerId) ∧
    "tube-stations" ∉
      (layers trips trailLength time theme tl ts sl false).map LayerDesc.layerId := by
  refine ⟨⟨?_, ?_⟩, ?_⟩ <;>
    [ (cases st <;> cases ts);  (cases st <;> cases ts);  (cases sl <;> cases tl)] <;>
    simp [layers, tubeLinesBorderLayer, tubeLinesMainLayer, tubeStationsLayer,
      tripsLayerDesc, LayerDesc.layerId]

/-- The full input of the Layer Composer, bundled for the determinism
claim. -/
structure ComposerInput where
  trips : Option TripsData
  trailLength : ℚ
  time : ℚ
  theme : MapTheme
  tubeLines : Option TubeLineData
  tubeStations : Option TubeStationData
  showTubeLines : Bool
  showTubeStations : Bool

/-- The Layer Composer as a function of its bundled input. -/
def composeLayers (i : ComposerInput) : List LayerDesc :=
  layers i.trips i.trailLength i.time i.theme i.tubeLines i.tubeStations
    i.showTubeLines i.showTubeStations

/-- C8: the Layer Composer is deterministic and idempotent — re-deriving
the layer list from identical inputs (same trip data, time, datasets,
visibility flags and theme) yields structurally equal descriptor lists,
with the same identifiers in the same order. -/
theorem composeLayers_deterministic (a b : ComposerInput) (h : a = b) :
    composeLayers a = composeLayers b ∧
    (composeLayers a).map LayerDesc.layerId =
      (composeLayers b).map LayerDesc.layerId := by
  subst h; exact ⟨rfl, rfl⟩

/-- The default configuration of the component (its prop defaults and the
theme of the app's composition root), as one concrete composer input. -/
def sampleComposerInput : ComposerInput :=
  { trips := none
    trailLength := 180
    time := 0
    theme :=
      { buildingColor := [74, 80, 87]
        trailColor0 := [253, 128, 93]
        trailColor1 := [23, 184, 190]
        material :=
          { ambient := 0.1, diffuse := 0.6, shininess := 32,
            specularColor := [60, 64, 70] } }
    tubeLines := none
    tubeStations := none
    showTubeLines := true
    showTubeStations := true }

/-- Witness for C8 at the concrete default input. -/
theorem composeLayers_deterministic_witness :
    sampleComposerInput = sampleComposerInput ∧
    (composeLayers sampleComposerInput = composeLayers sampleComposerInput ∧
     (composeLayers sampleComposerInput).map LayerDesc.layerId =
       (composeLayers sampleComposerInput).map LayerDesc.layerId) :=
  ⟨rfl, composeLayers_deterministic sampleComposerInput sampleComposerInput rfl⟩

/-! ## Tooltip Formatter

`getTooltip` (TubeMap.tsx lines 214–268) receives the hit-tested object
(nullable) and dispatches on the owning layer id, the feature's
properties and its geometry type.  Template-string interpolation of a
possibly-missing value renders JavaScript's `undefined`; accessing a
property of an `undefined` value throws a `TypeError`, recorded here as
an explicit result. -/

/-- `${x}` for a possibly-missing string: JavaScript renders a missing
value as the text `undefined`. -/
def optStr : Option String → String
  | some s => s
  | none => "undefined"

/-- `${line.opened || 'N/A'}`: the `||` fallback fires for a missing
`opened` field and also for the falsy number 0. -/
def openedDisplay : Option Nat → String
  | none => "N/A"
  | some n => if n = 0 then "N/A" else toString n

/-- `getRgbColourStringForText(line.name)` as the station branch calls it:
a missing name flows into the synthetic feature, whose extracted line
name is then the empty string — the same result as calling the accessor
with `""`. -/
def getRgbColourStringForTextOpt : Option String → String
  | some n => getRgbColourStringForText n
  | none => getRgbColourStringForText ""

/-- The `<span>` one serving line contributes to a station tooltip
(TubeMap.tsx lines 247–250), colored by the text-color accessor. -/
def lineSpan (line : LineEntry) : String :=
  "\n                            <span style=\"color: " ++
    getRgbColourStringForTextOpt line.name ++ ";\">" ++ optStr line.name ++
    "</span>\n                        "

/-- `Array.prototype.join('<br/>')`. -/
def joinBr : List String → String
  | [] => ""
  | [s] => s
  | s :: rest => s ++ "<br/>" ++ joinBr rest

/-- The opening fragment both tooltip templates share, up to the first
interpolation point. -/
def divOpen : String :=
  "\n              <div style=\"background: rgba(0,0,0,0.8); padding: 8px; border-radius: 4px; color: white;\">\n                <strong>"

/-- The line template's fragment between the name and the opening year. -/
def openedSep : String := "</strong><br/>\n                Opened: "

/-- The line template's fragment between the year and the line id. -/
def lineIdSep : String := "<br/>\n                Line ID: "

/-- The station template's fragment between the name and the line list. -/
def stationSep : String := "</strong><br/>\n                "

/-- The closing fragment both tooltip templates share. -/
def divClose : String := "\n              </div>\n            "

/-- The line-tooltip HTML (TubeMap.tsx lines 226–232). -/
def lineTooltipHtml (line : LineEntry) (id : Option String) : String :=
  divOpen ++ optStr line.name ++ openedSep ++ openedDisplay line.opened ++
    lineIdSep ++ optStr id ++ divClose

/-- The station-tooltip HTML (TubeMap.tsx lines 245–259): the station
name, then every serving line's span, `<br/>`-joined. -/
def stationTooltipHtml (stationName : String) (stationLines : List LineEntry) : String :=
  divOpen ++ stationName ++ stationSep ++ joinBr (stationLines.map lineSpan) ++ divClose

/-- The hit-tested object the tooltip callback receives: the owning
layer's id (`object.layer && object.layer.id`), the feature's optional
`properties` and its geometry's `type` (read unconditionally as
`object.geometry.type`). -/
structure PickedObject where
  layerId : Option String
  properties : Option FeatProps
  geometryType : String
deriving DecidableEq, Repr

/-- The feature's `lines` array reached through the optional
`properties`. -/
def PickedObject.propsLines (po : PickedObject) : Option (List LineEntry) :=
  po.properties.bind (fun props => props.lines)

/-- What the tooltip callback produces: a line- or station-branch tooltip
payload (html plus the two inline style attributes), no tooltip (`null`),
or a thrown `TypeError` (indexing into an empty `lines` array in the line
branch, or `.map` on a missing `lines` array in the station branch). -/
inductive TooltipResult where
  | lineTooltip (html fontSize fontFamily : String)
  | stationTooltip (html fontSize fontFamily : String)
  | noTooltip
  | typeError
deriving DecidableEq, Repr

/-- Whether the result is the line branch's tooltip. -/
def TooltipResult.isLine : TooltipResult → Bool
  | .lineTooltip _ _ _ => true
  | _ => false

/-- `getTooltip` (TubeMap.tsx lines 214–268).  The line branch fires when
the hit's layer is `tube-lines-main`, the feature has a `lines` property
and its geometry is not a `Point`; otherwise the station branch fires
when the feature's `name` is truthy and the geometry is a `Point`; any
other hit, or a null feature, yields no tooltip. -/
def getTooltip (object : Option PickedObject) : TooltipResult :=
  match object with
  | none => .noTooltip
  | some po =>
    match po.properties with
    | none => .noTooltip
    | some props =>
      if po.layerId = some "tube-lines-main" ∧ props.lines.isSome ∧
          po.geometryType ≠ "Point" then
        match props.lines with
        | some (line :: _) =>
          .lineTooltip (lineTooltipHtml line props.id) "12px" "Arial, sans-serif"
        | some [] => .typeError -- `lines[0]` is undefined, so `line.name` throws
        | none => .noTooltip -- unreachable: the guard requires `lines` present
      else if props.name.getD "" ≠ "" ∧ po.geometryType = "Point" then
        match props.lines with
        | some ls =>
          .stationTooltip (stationTooltipHtml (props.name.getD "") ls) "12px" "Arial, sans-serif"
        | none => .typeError -- `stationLines.map` on undefined throws
      else .noTooltip

/-- An element of a `<br/>`-joined list occurs verbatim in the joined
string. -/
theorem joinBr_mem (f : LineEntry → String) (l : LineEntry) (ls : List LineEntry)
    (h : l ∈ ls) : ∃ p q, joinBr (ls.map f) = p ++ f l ++ q := by
  induction ls with
  | nil => cases h
  | cons a t ih =>
    rcases List.mem_cons.mp h with rfl | hmem
    · cases t with
      | nil =>
        exact ⟨"", "", by simp [joinBr, String.empty_append, String.append_empty]⟩
      | cons b t' =>
        refine ⟨"", "<br/>" ++ joinBr ((b :: t').map f), ?_⟩
        simp only [List.map_cons, joinBr, String.empty_append, String.append_assoc]
    · have ht : t ≠ [] := List.ne_nil_of_mem hmem
      obtain ⟨b, t', rfl⟩ := List.exists_cons_of_ne_nil ht
      obtain ⟨p, q, hp⟩ := ih hmem
      refine ⟨f a ++ "<br/>" ++ p, q, ?_⟩
      simp only [List.map_cons, joinBr, String.append_assoc] at hp ⊢
      rw [hp]

/-- Every character `Nat.toDigitsCore` emits beyond the seed list is some
`Nat.digitChar`. -/
theorem mem_toDigitsCore (b : Nat) (f : Nat) : ∀ (n : Nat) (l : List Char) (c : Char),
    c ∈ Nat.toDigitsCore b f n l → c ∈ l ∨ ∃ m, c = Nat.digitChar m := by
  induction f with
  | zero => intro n l c hc; exact Or.inl hc
  | succ f ih =>
    intro n l c hc
    simp only [Nat.toDigitsCore] at hc
    by_cases h : n / b = 0
    · rw [if_pos h] at hc
      rcases List.mem_cons.mp hc with rfl | h2
      · exact Or.inr ⟨n % b, rfl⟩
      · exact Or.inl h2
    · rw [if_neg h] at hc
      rcases ih (n / b) (Nat.digitChar (n % b) :: l) c hc with h2 | h2
      · rcases List.mem_cons.mp h2 with rfl | h3
        · exact Or.inr ⟨n % b, rfl⟩
        · exact Or.inl h3
      · exact Or.inr h2

/-- No digit character is the letter `N`. -/
theorem digitChar_ne_N (m : Nat) : Nat.digitChar m ≠ 'N' := by
  rcases eq_or_ne m 0 with rfl | h0; · decide
  rcases eq_or_ne m 1 with rfl | h1; · decide
  rcases eq_or_ne m 2 with rfl | h2; · decide
  rcases eq_or_ne m 3 with rfl | h3; · decide
  rcases eq_or_ne m 4 with rfl | h4; · decide
  rcases eq_or_ne m 5 with rfl | h5; · decide
  rcases eq_or_ne m 6 with rfl | h6; · decide
  rcases eq_or_ne m 7 with rfl | h7; · decide
  rcases eq_or_ne m 8 with rfl | h8; · decide
  rcases eq_or_ne m 9 with rfl | h9; · decide
  rcases eq_or_ne m 10 with rfl | h10; · decide
  rcases eq_or_ne m 11 with rfl | h11; · decide
  rcases eq_or_ne m 12 with rfl | h12; · decide
  rcases eq_or_ne m 13 with rfl | h13; · decide
  rcases eq_or_ne m 14 with rfl | h14; · decide
  rcases eq_or_ne m 15 with rfl | h15; · decide
  unfold Nat.digitChar
  rw [if_neg h0, if_neg h1, if_neg h2, if_neg h3, if_neg h4, if_neg h5, if_neg h6,
    if_neg h7, if_neg h8, if_neg h9, if_neg h10, if_neg h11, if_neg h12, if_neg h13,
    if_neg h14, if_neg h15]
  decide

/-- The decimal rendering of a number is never the text `N/A`. -/
theorem toString_nat_ne_NA (n : Nat) : toString n ≠ "N/A" := by
  intro h
  have hmem : 'N' ∈ Nat.toDigitsCore 10 (n + 1) n [] := by
    have hdata : (toString n).data = "N/A".data := by rw [h]
    have h2 : (toString n).data = Nat.toDigitsCore 10 (n + 1) n [] := rfl
    rw [h2] at hdata
    rw [hdata]
    decide
  rcases mem_toDigitsCore 10 (n + 1) n [] 'N' hmem with h1 | ⟨m, hm⟩
  · exact absurd h1 (List.not_mem_nil _)
  · exact digitChar_ne_N m hm.symm

/-- The rendered `Opened:` text is `N/A` exactly for a missing or zero
`opened` field. -/
theorem openedDisplay_eq_NA (op : Option Nat) :
    openedDisplay op = "N/A" ↔ (op = none ∨ op = some 0) := by
  cases op with
  | none => simp [openedDisplay]
  | some n =>
    simp only [openedDisplay, reduceCtorEq, Option.some.injEq, false_or]
    by_cases h : n = 0
    · subst h; simp
    · simp [h, toString_nat_ne_NA n]

/-- C6: a hit on a station feature (a point geometry and a truthy name)
yields the station tooltip listing every serving line — each line's
`<span>`, colored by the text-color accessor, occurs verbatim in the
HTML — and the text-color accessor yields `rgb(220, 36, 31)` for Central
and `rgb(255, 255, 255)` for Northern, the one line forced to white
text. -/
theorem getTooltip_station (po : PickedObject) (props : FeatProps) (nm : String)
    (ls : List LineEntry)
    (hprops : po.properties = some props) (hnm : props.name = some nm)
    (hls : props.lines = some ls) (hne : nm ≠ "") (hgeom : po.geometryType = "Point") :
    getTooltip (some po) =
      .stationTooltip (stationTooltipHtml nm ls) "12px" "Arial, sans-serif" ∧
    (∀ l ∈ ls, ∃ p q, stationTooltipHtml nm ls = p ++ lineSpan l ++ q) ∧
    getRgbColourStringForText "Central" = "rgb(220, 36, 31)" ∧
    getRgbColourStringForText "Northern" = "rgb(255, 255, 255)" := by
  refine ⟨?_, ?_, rfl, rfl⟩
  · simp [getTooltip, hprops, hls, hnm, hgeom, hne]
  · intro l hl
    obtain ⟨p, q, hp⟩ := joinBr_mem lineSpan l ls hl
    refine ⟨divOpen ++ nm ++ stationSep ++ p, q ++ divClose, ?_⟩
    simp only [stationTooltipHtml, hp, String.append_assoc]

/-- A concrete station hit: the `properties` of a station served by the
Central and Northern lines. -/
def sampleStationProps : FeatProps :=
  ⟨some "940GZZLUMED", some "Mile End",
    some [⟨some "Central", some 1946⟩, ⟨some "Northern", none⟩]⟩

/-- A concrete picked object for the station hit: point geometry, picked
from the stations layer. -/
def sampleStationHit : PickedObject :=
  ⟨some "tube-stations", some sampleStationProps, "Point"⟩

/-- Witness for C6 at a concrete station served by Central and
Northern. -/
theorem getTooltip_station_witness :
    sampleStationHit.properties = some sampleStationProps ∧
    sampleStationProps.name = some "Mile End" ∧
    sampleStationProps.lines =
      some [⟨some "Central", some 1946⟩, ⟨some "Northern", none⟩] ∧
    "Mile End" ≠ "" ∧ sampleStationHit.geometryType = "Point" ∧
    (getTooltip (some sampleStationHit) =
      .stationTooltip
        (stationTooltipHtml "Mile End"
          [⟨some "Central", some 1946⟩, ⟨some "Northern", none⟩])
        "12px" "Arial, sans-serif" ∧
     (∀ l ∈ [(⟨some "Central", some 1946⟩ : LineEntry), ⟨some "Northern", none⟩],
       ∃ p q, stationTooltipHtml "Mile End"
          [⟨some "Central", some 1946⟩, ⟨some "Northern", none⟩] =
         p ++ lineSpan l ++ q) ∧
     getRgbColourStringForText "Central" = "rgb(220, 36, 31)" ∧
     getRgbColourStringForText "Northern" = "rgb(255, 255, 255)") :=
  ⟨rfl, rfl, rfl, by decide, rfl,
   getTooltip_station sampleStationHit sampleStationProps "Mile End"
     [⟨some "Central", some 1946⟩, ⟨some "Northern", none⟩]
     rfl rfl rfl (by decide) rfl⟩

/-- A concrete line hit whose first entry carries `opened = 0`: the
`opened` field is present, yet the rendered tooltip shows `N/A`. -/
def openedZeroHit : PickedObject :=
  ⟨some "tube-lines-main",
    some ⟨some "district", none, some [⟨some "District", some 0⟩]⟩, "LineString"⟩

/-- A line hit whose `lines` array is present but empty: the line-branch
guard passes, yet `lines[0]` is `undefined` and `line.name` throws. -/
def emptyLinesHit : PickedObject :=
  ⟨some "tube-lines-main", some ⟨some "x", none, some []⟩, "LineString"⟩

/-- C7 counterexample: the claim says the fallback text `N/A` appears
exactly when the `opened` field is absent; but at a line hit whose first
entry has `opened = 0` — a present field — the rendered HTML still reads
`Opened: N/A`, because the source's `line.opened || 'N/A'` treats the
falsy number 0 like a missing value.  Moreover, at a hit satisfying the
claim's three dispatch conditions but with an empty `lines` array, the
code throws a `TypeError` instead of producing the line tooltip. -/
theorem getTooltip_NA_counterexample :
    (openedZeroHit.propsLines.getD []).head? =
      some ⟨some "District", some 0⟩ ∧
    (some 0 : Option Nat) ≠ none ∧
    openedDisplay (some 0) = "N/A" ∧
    getTooltip (some openedZeroHit) =
      .lineTooltip (divOpen ++ "District" ++ openedSep ++ "N/A" ++ lineIdSep ++
        "district" ++ divClose) "12px" "Arial, sans-serif" ∧
    (emptyLinesHit.layerId = some "tube-lines-main" ∧
     emptyLinesHit.propsLines.isSome = true ∧
     emptyLinesHit.geometryType ≠ "Point" ∧
     getTooltip (some emptyLinesHit) = .typeError) :=
  ⟨rfl, by decide, rfl, rfl, rfl, rfl, by decide, rfl⟩

/-- C7 (amended): the dispatch produces the line tooltip if and only if
the hit belongs to the `tube-lines-main` layer, the feature has a `lines`
property, and its geometry is not a `Point` (given the data-model
invariant that a present `lines` array is non-empty); a null feature, or
a hit matching neither the line nor the station pattern, yields no
tooltip; and the opening-year text falls back to `N/A` exactly when the
`opened` field is absent **or zero** (the `||` fallback also fires on the
falsy number 0). -/
theorem getTooltip_dispatch (po : PickedObject) (op : Option Nat)
    (hwf : po.propsLines ≠ some []) :
    ((getTooltip (some po)).isLine = true ↔
      (po.layerId = some "tube-lines-main" ∧ po.propsLines.isSome ∧
        po.geometryType ≠ "Point")) ∧
    (∀ props line rest, po.properties = some props → props.lines = some (line :: rest) →
      po.layerId = some "tube-lines-main" → po.geometryType ≠ "Point" →
      getTooltip (some po) =
        .lineTooltip (lineTooltipHtml line props.id) "12px" "Arial, sans-serif") ∧
    getTooltip none = .noTooltip ∧
    (¬(po.layerId = some "tube-lines-main" ∧ po.propsLines.isSome ∧
        po.geometryType ≠ "Point") →
      ¬((po.properties.bind (fun props => props.name)).getD "" ≠ "" ∧
        po.geometryType = "Point") →
      getTooltip (some po) = .noTooltip) ∧
    (openedDisplay op = "N/A" ↔ (op = none ∨ op = some 0)) := by
  obtain ⟨lid, props?, gt⟩ := po
  refine ⟨?_, ?_, rfl, ?_, openedDisplay_eq_NA op⟩
  · cases props? with
    | none =>
      simp [getTooltip, TooltipResult.isLine, PickedObject.propsLines]
    | some props =>
      cases hls : props.lines with
      | none =>
        constructor
        · intro habs
          exfalso
          simp only [getTooltip, hls] at habs
          rw [if_neg (by rintro ⟨-, h, -⟩; simp at h)] at habs
          revert habs
          split_ifs <;> simp [TooltipResult.isLine]
        · rintro ⟨-, h, -⟩
          simp [PickedObject.propsLines, hls] at h
      | some ls =>
        cases ls with
        | nil =>
          exact absurd (by simp [PickedObject.propsLines, hls]) hwf
        | cons line rest =>
          by_cases hm : lid = some "tube-lines-main" ∧ gt ≠ "Point"
          · have hres : getTooltip (some ⟨lid, some props, gt⟩) =
                .lineTooltip (lineTooltipHtml line props.id) "12px" "Arial, sans-serif" := by
              simp only [getTooltip, hls]
              rw [if_pos ⟨hm.1, rfl, hm.2⟩]
            rw [hres]
            simp [TooltipResult.isLine, PickedObject.propsLines, hls, hm.1, hm.2]
          · constructor
            · intro habs
              exfalso
              simp only [getTooltip, hls] at habs
              rw [if_neg (by rintro ⟨h1, -, h3⟩; exact hm ⟨h1, h3⟩)] at habs
              revert habs
              split_ifs <;> simp [TooltipResult.isLine]
            · rintro ⟨h1, -, h3⟩
              exact absurd ⟨h1, h3⟩ hm
  · intro props line rest hprops hlines hlid hgt
    cases hprops
    simp only [getTooltip, hlines]
    rw [if_pos ⟨hlid, rfl, hgt⟩]
  · intro h1 h2
    cases props? with
    | none => simp [getTooltip]
    | some props =>
      have hc : ¬(lid = some "tube-lines-main" ∧ props.lines.isSome ∧ gt ≠ "Point") := by
        rintro ⟨ha, hb, hcc⟩
        exact h1 ⟨ha, by simp [PickedObject.propsLines, hb], hcc⟩
      have hc2 : ¬(props.name.getD "" ≠ "" ∧ gt = "Point") := by
        rintro ⟨ha, hb⟩
        exact h2 ⟨by simpa using ha, hb⟩
      simp only [getTooltip, if_neg hc, if_neg hc2]

/-- A concrete line hit for the dispatch witness: a Central-line feature
picked from the `tube-lines-main` layer with a `LineString` geometry. -/
def sampleLineHit : PickedObject :=
  ⟨some "tube-lines-main",
    some ⟨some "central", none, some [⟨some "Central", some 1900⟩]⟩, "LineString"⟩

/-- Witness for C7 at the concrete line hit. -/
theorem getTooltip_dispatch_witness :
    sampleLineHit.propsLines ≠ some [] ∧
    (((getTooltip (some sampleLineHit)).isLine = true ↔
       (sampleLineHit.layerId = some "tube-lines-main" ∧
         sampleLineHit.propsLines.isSome ∧ sampleLineHit.geometryType ≠ "Point")) ∧
     (∀ props line rest, sampleLineHit.properties = some props →
       props.lines = some (line :: rest) →
       sampleLineHit.layerId = some "tube-lines-main" →
       sampleLineHit.geometryType ≠ "Point" →
       getTooltip (some sampleLineHit) =
         .lineTooltip (lineTooltipHtml line props.id) "12px" "Arial, sans-serif") ∧
     getTooltip none = .noTooltip ∧
     (¬(sampleLineHit.layerId = some "tube-lines-main" ∧
         sampleLineHit.propsLines.isSome ∧ sampleLineHit.geometryType ≠ "Point") →
       ¬((sampleLineHit.properties.bind (fun props => props.name)).getD "" ≠ "" ∧
         sampleLineHit.geometryType = "Point") →
       getTooltip (some sampleLineHit) = .noTooltip) ∧
     (openedDisplay (some 1900) = "N/A" ↔
       ((some 1900 : Option Nat) = none ∨ (some 1900 : Option Nat) = some 0))) :=
  ⟨by decide, getTooltip_dispatch sampleLineHit (some 1900) (by decide)⟩

end TubeMap
